import Mathlib

/-!
Verification of the `unsafety` crate (src/lib.rs): a shallow embedding of the
`UnsafeReason` annotation type, its builder combinators, the `unsafe_reason`
validator, the `unsafe_because!` macro's two expansion arms, and the
`standard_reasons!` catalog of standard reason constants.

The Rust type is `pub struct UnsafeReason {}` — a struct with no fields — and
every method is a `const fn` whose body is `self` (or `Self {}` for `new`), so
the embedding is a unit-like structure with identity combinators. Code regions
wrapped by the macro are modelled as state transformers `S → α × S`, where the
state `S` threads whatever observable effects the region has; `const fn` calls
perform no state effect, matching Rust's guarantee that a `const fn` with an
empty or pure body has no side effects.
-/

namespace Unsafety

/-- `pub struct UnsafeReason {}` — the annotation type. The source comments:
"Because these annotations are intended to have no effect on code generation,
this type is empty." -/
structure UnsafeReason where

namespace UnsafeReason

/-- `pub const fn new(_reason_id: &'static str) -> Self { Self {} }` -/
def new (_reason_id : String) : UnsafeReason := {}

/-- `pub const fn bug(self, _bug_id: &'static str) -> Self { self }` -/
def bug (self : UnsafeReason) (_bug_id : String) : UnsafeReason := self

/-- `pub const fn message(self, _message: &'static str) -> Self { self }` -/
def message (self : UnsafeReason) (_message : String) : UnsafeReason := self

/-- `pub const fn owner(self, _owner: &'static str) -> Self { self }` -/
def owner (self : UnsafeReason) (_owner : String) : UnsafeReason := self

/-- `pub const fn link(self, _url: &'static str) -> Self { self }` -/
def link (self : UnsafeReason) (_url : String) : UnsafeReason := self

/-- `pub const fn tag(self, _tag: &'static str, _value: &'static str) -> Self { self }` -/
def tag (self : UnsafeReason) (_tag _value : String) : UnsafeReason := self

end UnsafeReason

/-- `pub const fn unsafe_reason(_reason: UnsafeReason) { /* nothing */ }` —
the validator: an empty-bodied `const fn` returning unit. -/
def unsafe_reason (_reason : UnsafeReason) : Unit := ()

/-- A code region in the effectful semantics: a state transformer producing the
region's result value and the final state. The state `S` threads the region's
observable effects. -/
abbrev Region (S α : Type) : Type := S → α × S

/-- A call `unsafe_reason(r)` as a step in the effectful semantics. The callee
is a `const fn` whose body is empty, so the call computes `()` and leaves the
state untouched. -/
def unsafeReasonCall {S : Type} (r : UnsafeReason) : Region S Unit :=
  fun s => (unsafe_reason r, s)

/-- A call `x.owner(a)` as a step in the effectful semantics: a `const fn`
whose body is the pure expression `self`, so no state effect occurs. -/
def ownerCall {S : Type} (x : UnsafeReason) (a : String) : Region S UnsafeReason :=
  fun s => (x.owner a, s)

/-- A call `x.bug(a)` in the effectful semantics; the body is pure. -/
def bugCall {S : Type} (x : UnsafeReason) (a : String) : Region S UnsafeReason :=
  fun s => (x.bug a, s)

/-- A call `x.link(a)` in the effectful semantics; the body is pure. -/
def linkCall {S : Type} (x : UnsafeReason) (a : String) : Region S UnsafeReason :=
  fun s => (x.link a, s)

/-- A call `x.message(a)` in the effectful semantics; the body is pure. -/
def messageCall {S : Type} (x : UnsafeReason) (a : String) : Region S UnsafeReason :=
  fun s => (x.message a, s)

/-- A call `x.tag(k, v)` in the effectful semantics; the body is pure. -/
def tagCall {S : Type} (x : UnsafeReason) (k v : String) : Region S UnsafeReason :=
  fun s => (x.tag k v, s)

/-- The single-justification arm of `unsafe_because!`:
`$reason:expr => $($body:tt)*` expands to
`{ $crate::unsafe_reason($reason); unsafe { $($body)* } }` — validate the
reason, then evaluate the body in the resulting state. -/
def unsafe_because {S α : Type} (reason : UnsafeReason) (body : Region S α) :
    Region S α :=
  fun s => body (unsafeReasonCall reason s).2

/-- The evaluation of the bracketed arm of `unsafe_because!`:
`[ $($reason:expr),+ ] => $($body:tt)*` expands to
`{ $( $crate::unsafe_reason($reason); )* unsafe { $($body)* } }` — one
`unsafe_reason` call per listed reason, in order, then the body. -/
def unsafeBecauseList {S α : Type} (reasons : List UnsafeReason)
    (body : Region S α) : Region S α :=
  fun s => body (reasons.foldl (fun t j => (unsafeReasonCall j t).2) s)

/-- The macro front end for the bracketed form. The source pattern
`[ $($reason:expr),+ ]` requires at least one reason expression, so an empty
bracket list matches no arm of `unsafe_because!` and expansion fails at build
time (`none`); a non-empty list expands to `unsafeBecauseList`. -/
def unsafeBecauseListExpand {S α : Type} (reasons : List UnsafeReason)
    (body : Region S α) : Option (Region S α) :=
  match reasons with
  | [] => none
  | _ :: _ => some (unsafeBecauseList reasons body)

/-- `pub const USES_FOREIGN_CODE: UnsafeReason = UnsafeReason::new(stringify!(USES_FOREIGN_CODE));`
(one expansion of the `standard_reasons!` invocation). -/
def USES_FOREIGN_CODE : UnsafeReason := UnsafeReason.new "USES_FOREIGN_CODE"

/-- `pub const USED_BY_FOREIGN_CODE: UnsafeReason = UnsafeReason::new(stringify!(USED_BY_FOREIGN_CODE));` -/
def USED_BY_FOREIGN_CODE : UnsafeReason := UnsafeReason.new "USED_BY_FOREIGN_CODE"

/-- `pub const PERFORMANCE: UnsafeReason = UnsafeReason::new(stringify!(PERFORMANCE));` -/
def PERFORMANCE : UnsafeReason := UnsafeReason.new "PERFORMANCE"

/-- `pub const IMPLEMENTS_SAFE_TRANSMUTE: UnsafeReason = UnsafeReason::new(stringify!(IMPLEMENTS_SAFE_TRANSMUTE));` -/
def IMPLEMENTS_SAFE_TRANSMUTE : UnsafeReason :=
  UnsafeReason.new "IMPLEMENTS_SAFE_TRANSMUTE"

/-- `pub const IMPLEMENTS_CONTAINER: UnsafeReason = UnsafeReason::new(stringify!(IMPLEMENTS_CONTAINER));` -/
def IMPLEMENTS_CONTAINER : UnsafeReason := UnsafeReason.new "IMPLEMENTS_CONTAINER"

/-- `pub const IMPLEMENTS_DEVICE_DRIVER: UnsafeReason = UnsafeReason::new(stringify!(IMPLEMENTS_DEVICE_DRIVER));` -/
def IMPLEMENTS_DEVICE_DRIVER : UnsafeReason :=
  UnsafeReason.new "IMPLEMENTS_DEVICE_DRIVER"

/-- `pub const IMPLEMENTS_MEMORY_MANAGER: UnsafeReason = UnsafeReason::new(stringify!(IMPLEMENTS_MEMORY_MANAGER));` -/
def IMPLEMENTS_MEMORY_MANAGER : UnsafeReason :=
  UnsafeReason.new "IMPLEMENTS_MEMORY_MANAGER"

/-- `pub const USES_VECTOR_INTRINSICS: UnsafeReason = UnsafeReason::new(stringify!(USES_VECTOR_INTRINSICS));` -/
def USES_VECTOR_INTRINSICS : UnsafeReason :=
  UnsafeReason.new "USES_VECTOR_INTRINSICS"

/-- Folding the validator calls of a reason list over the state leaves the
state unchanged: each `unsafe_reason` call is a no-op. -/
theorem foldl_unsafeReasonCall_id {S : Type} (Js : List UnsafeReason) (s : S) :
    Js.foldl (fun t j => (unsafeReasonCall j t).2) s = s := by
  induction Js generalizing s with
  | nil => rfl
  | cons j Js ih => exact ih s

/-- C1: behavioral transparency of the Wrap construct — for every code region
`R`, every justification `J` and every non-empty justification list `Js`,
evaluating `unsafe_because!(J => R)` (resp. the bracketed form over `Js`) from
any initial state produces exactly the result value and final state of
evaluating `R` directly: no transformation, no added control flow. -/
theorem unsafe_because_transparent {S α : Type} (J : UnsafeReason)
    (Js : List UnsafeReason) (R : Region S α) (s : S) (hJs : Js ≠ []) :
    unsafe_because J R s = R s ∧ unsafeBecauseList Js R s = R s := by
  refine ⟨rfl, ?_⟩
  unfold unsafeBecauseList
  rw [foldl_unsafeReasonCall_id]

/-- Witness for C1 at a concrete region over state `Nat`: wrapping
`fun n => (n + 1, n * 2)` with `USES_FOREIGN_CODE` (or the list
`[PERFORMANCE]`) from state `5` yields the region's own result. -/
theorem unsafe_because_transparent_witness :
    unsafe_because USES_FOREIGN_CODE (fun n : Nat => (n + 1, n * 2)) 5 =
        (fun n : Nat => (n + 1, n * 2)) 5 ∧
      unsafeBecauseList [PERFORMANCE] (fun n : Nat => (n + 1, n * 2)) 5 =
        (fun n : Nat => (n + 1, n * 2)) 5 :=
  unsafe_because_transparent USES_FOREIGN_CODE [PERFORMANCE]
    (fun n : Nat => (n + 1, n * 2)) 5 (List.cons_ne_nil _ _)

/-- C2 is false on the code: no observation of owners can exhibit the claimed
append behavior, because `owner` returns its input unchanged — at the concrete
input `X = new "X"`, `a = "alice"`, there is no `owners` reading of
`UnsafeReason` under which `X.owner "alice"` equals `X` with `"alice"`
appended to its owners. -/
theorem owner_append_impossible :
    ¬ ∃ owners : UnsafeReason → List String,
        owners ((UnsafeReason.new "X").owner "alice") =
          owners (UnsafeReason.new "X") ++ ["alice"] := by
  rintro ⟨owners, h⟩
  simp only [UnsafeReason.owner] at h
  have h2 := congrArg List.length h
  simp only [List.length_append, List.length_cons, List.length_nil] at h2
  omega

/-- C2 amended: each combinator returns its input record unchanged and
discards the supplied attribute value — `c(X, a) = X` for every record `X`
and arguments; since `UnsafeReason` has no fields, there is no attribute
set to append to, and "all other attributes copied unchanged" holds
trivially of the identical record. -/
theorem combinators_return_input (X : UnsafeReason) (a k v : String) :
    X.owner a = X ∧ X.bug a = X ∧ X.link a = X ∧ X.message a = X ∧
      X.tag k v = X :=
  ⟨rfl, rfl, rfl, rfl, rfl⟩

/-- C3 is false on the code: at the concrete base `new "BASE"`, no `owners`
reading of `UnsafeReason` makes `base.owner "foo" |>.owner "bar"` carry
`["foo", "bar"]` appended to the base's owners, because both applications of
`owner` return the base itself. -/
theorem owner_accumulation_impossible :
    ¬ ∃ owners : UnsafeReason → List String,
        owners (((UnsafeReason.new "BASE").owner "foo").owner "bar") =
          owners (UnsafeReason.new "BASE") ++ ["foo", "bar"] := by
  rintro ⟨owners, h⟩
  simp only [UnsafeReason.owner] at h
  have h2 := congrArg List.length h
  simp only [List.length_append, List.length_cons, List.length_nil] at h2
  omega

/-- C3 amended: repeated combinator application does not accumulate —
`base.owner("foo").owner("bar")` is the base record itself, unchanged, for
every base record; no owners are retained because the record type carries no
data. -/
theorem owner_owner_collapses (base : UnsafeReason) :
    (base.owner "foo").owner "bar" = base :=
  rfl

/-- C4 is false on the code: the id passed to `new` is discarded, so no `id`
reading of `UnsafeReason` can return each catalog entry's declared name — at
the concrete entries `USES_FOREIGN_CODE` and `PERFORMANCE` (equal values,
both the empty record) that would force the two distinct name strings to be
equal. -/
theorem catalog_id_unrecoverable :
    ¬ ∃ ident : UnsafeReason → String,
        ident USES_FOREIGN_CODE = "USES_FOREIGN_CODE" ∧
          ident PERFORMANCE = "PERFORMANCE" := by
  rintro ⟨ident, h1, h2⟩
  have hc : USES_FOREIGN_CODE = PERFORMANCE := rfl
  rw [hc] at h1
  rw [h1] at h2
  exact absurd h2 (by decide)

/-- C4 amended: `new(id)` discards its argument and returns the unique empty
record, so records store no id; each catalog entry is defined as `new` of its
declared symbolic name (here `USES_FOREIGN_CODE`), all entries are the same
value, and deriving via combinators returns the entry's value unchanged:
`DERIVED = USES_FOREIGN_CODE.owner("alice").bug("BUG-123")` is the value
`USES_FOREIGN_CODE` itself — but no id is recoverable from any record
value. -/
theorem catalog_new_and_derivation :
    USES_FOREIGN_CODE = UnsafeReason.new "USES_FOREIGN_CODE" ∧
      (USES_FOREIGN_CODE.owner "alice").bug "BUG-123" = USES_FOREIGN_CODE ∧
      ∀ a b : String, UnsafeReason.new a = UnsafeReason.new b :=
  ⟨rfl, rfl, fun _ _ => rfl⟩

/-- C5: combinators never mutate their input — each combinator call, run in
the effectful semantics from any state, leaves the state exactly as it was
(no observable effect anywhere, so no attribute of `X` is altered) and
returns the very record `X`, which thus remains usable with its original
attributes. -/
theorem combinators_no_mutation {S : Type} (s : S) (X : UnsafeReason)
    (a k v : String) :
    (ownerCall X a s).2 = s ∧ (ownerCall X a s).1 = X ∧
      (bugCall X a s).2 = s ∧ (bugCall X a s).1 = X ∧
      (linkCall X a s).2 = s ∧ (linkCall X a s).1 = X ∧
      (messageCall X a s).2 = s ∧ (messageCall X a s).1 = X ∧
      (tagCall X k v s).2 = s ∧ (tagCall X k v s).1 = X :=
  ⟨rfl, rfl, rfl, rfl, rfl, rfl, rfl, rfl, rfl, rfl⟩

/-- C6: list-form equivalence — `unsafe_because!([J1, J2] => R)` expands (both
justifications become validator calls) and then, from any state, produces
exactly the result that `unsafe_because!(J1 => R)` produces: the second
justification adds only a validation obligation, never a behavior change. -/
theorem list_form_equiv_single {S α : Type} (J1 J2 : UnsafeReason)
    (R : Region S α) (s : S) :
    unsafeBecauseListExpand [J1, J2] R = some (unsafeBecauseList [J1, J2] R) ∧
      unsafeBecauseList [J1, J2] R s = unsafe_because J1 R s :=
  ⟨rfl, rfl⟩

/-- C7: the validator `unsafe_reason` accepts a record, performs no
computation and returns unit; run in the effectful semantics it changes
nothing — the call yields `()` and the untouched state. -/
theorem unsafe_reason_no_op {S : Type} (r : UnsafeReason) (s : S) :
    unsafe_reason r = () ∧ unsafeReasonCall r s = ((), s) :=
  ⟨rfl, rfl⟩

/-- C8: the empty bracket list is rejected at expansion time — the macro
pattern requires one or more reason expressions, so `unsafe_because!([] => R)`
matches no arm and fails to build (`none`), for every region `R`; no runtime
check is involved. -/
theorem empty_list_rejected {S α : Type} (R : Region S α) :
    unsafeBecauseListExpand ([] : List UnsafeReason) R = none :=
  rfl

/-- C9: the `UnsafeReason` type carries no data — every combinator is the
identity on the record, `new` is a constant function, and any two
`UnsafeReason` values are equal, so no supplied attribute (the id included)
is recoverable from a record value. -/
theorem reason_carries_no_data (r : UnsafeReason) (a b k v : String) :
    r.owner a = r ∧ r.bug a = r ∧ r.link a = r ∧ r.message a = r ∧
      r.tag k v = r ∧ UnsafeReason.new a = UnsafeReason.new b ∧
      ∀ x y : UnsafeReason, x = y :=
  ⟨rfl, rfl, rfl, rfl, rfl, rfl, fun _ _ => rfl⟩

/-- C10: the single form coincides with the one-element list form — for every
justification `J` and region `R`, the bracketed form `[J]` expands to the same
computation as `unsafe_because!(J => R)` (one validator call, then the body in
an unsafe block), and the two produce equal results from every state. -/
theorem single_form_equals_singleton_list {S α : Type} (J : UnsafeReason)
    (R : Region S α) :
    unsafeBecauseListExpand [J] R = some (unsafe_because J R) ∧
      ∀ s, unsafeBecauseList [J] R s = unsafe_because J R s :=
  ⟨rfl, fun _ => rfl⟩

end Unsafety
